import Mathlib

/-!
Shallow embedding of the paginated social-media collection scripts
(telegram_collector.py, reddit_collector.py, twitter_collector.py,
data_collection_script.py) of the war-discourse-analysis repository.

Texts and names are modelled as `List Char`, timestamps as `Nat`
(seconds since epoch; Python datetime comparison becomes `Nat` order),
identifiers as `Nat`.  A raw item carries a `malformed` flag modelling
that extracting its fields raises an exception at the point where the
script builds the per-record dictionary.  Each collection loop is
translated as structural recursion over the list of items the remote
iterator yields; the `Nat` component of a loop's result counts how many
items the loop consumed from the iterator (one per executed iteration),
making "fetches no further items" observable.
-/

/-- Python `str.lower()` on a text modelled as a list of characters. -/
def lowerStr (s : List Char) : List Char := s.map Char.toLower

/- ===================== telegram_collector.py ===================== -/

/-- A raw Telegram message as yielded by `client.iter_messages`:
`message.id`, `message.date`, `message.text` (possibly `None`),
`message.views` / `message.forwards` (possibly `None`); `malformed`
models the body of the loop raising while building `msg_data`. -/
structure RawMsg where
  id : Nat
  date : Nat
  text : Option (List Char)
  views : Option Nat
  forwards : Option Nat
  malformed : Bool
deriving DecidableEq

/-- The `msg_data` dictionary built by
`TelegramCollector.collect_channel_messages` (fields relevant to the
claims; `message.text or ""` and `message.views or 0` become `getD`). -/
structure MsgData where
  message_id : Nat
  channel_name : List Char
  message_text : List Char
  timestamp : Nat
  views : Nat
  forwards : Nat
deriving DecidableEq

/-- Construction of `msg_data` from a message (telegram_collector.py
lines 54-65). -/
def tgNormalize (chan : List Char) (m : RawMsg) : MsgData :=
  { message_id := m.id
    channel_name := chan
    message_text := m.text.getD []
    timestamp := m.date
    views := m.views.getD 0
    forwards := m.forwards.getD 0 }

/-- The two `continue` guards of the Telegram loop:
`if start_date and message.date < start_date: continue` and
`if end_date and message.date > end_date: continue`. -/
def tgSkip (s e : Option Nat) (m : RawMsg) : Bool :=
  (match s with | some sd => decide (m.date < sd) | none => false) ||
  (match e with | some ed => decide (ed < m.date) | none => false)

/-- The `async for message in iter_messages(...)` loop body of
`collect_channel_messages`.  Returns the number of items consumed from
the iterator together with `some messages` on normal completion, or
`none` when an item raised while building `msg_data` (the exception
escapes the loop and the local `messages` list is abandoned). -/
def tgLoop (chan : List Char) (s e : Option Nat) (acc : List MsgData) :
    List RawMsg → Nat × Option (List MsgData)
  | [] => (0, some acc)
  | m :: rest =>
    if tgSkip s e m then
      let r := tgLoop chan s e acc rest
      (r.1 + 1, r.2)
    else if m.malformed then
      (1, none)
    else
      let r := tgLoop chan s e (acc ++ [tgNormalize chan m]) rest
      (r.1 + 1, r.2)

/-- `TelegramCollector.collect_channel_messages`.  `src` is the sequence
`iter_messages` yields, `lim` the `limit` argument (applied by the
iterator), `data` the collector's `self.data`.  On success the messages
are returned and `self.data` is extended; on an exception inside the
loop the `except` branch returns `[]` and `self.data` is untouched.
Result: (returned messages, new `self.data`). -/
def collect_channel_messages (chan : List Char) (s e : Option Nat)
    (lim : Option Nat) (src : List RawMsg) (data : List MsgData) :
    List MsgData × List MsgData :=
  let fetched := match lim with | some n => src.take n | none => src
  match (tgLoop chan s e [] fetched).2 with
  | some msgs => (msgs, data ++ msgs)
  | none => ([], data)

/-- Python dict assignment `all_data[channel] = messages` on an
insertion-ordered dictionary modelled as an association list. -/
def dictInsertMsgs (d : List (List Char × List MsgData)) (k : List Char)
    (v : List MsgData) : List (List Char × List MsgData) :=
  if d.any (fun en => decide (en.1 = k)) then
    d.map (fun en => if en.1 = k then (k, v) else en)
  else d ++ [(k, v)]

/-- `TelegramCollector.collect_from_multiple_channels`: iterate the
channels, collect each one (threading `self.data`), store the result in
the `all_data` dictionary.  `srcOf` maps a channel to the messages its
iterator yields. -/
def collect_from_multiple_channels (channels : List (List Char))
    (s e : Option Nat) (lim : Option Nat)
    (srcOf : List Char → List RawMsg) (data : List MsgData) :
    List (List Char × List MsgData) × List MsgData :=
  channels.foldl (fun st ch =>
    let r := collect_channel_messages ch s e lim (srcOf ch) st.2
    (dictInsertMsgs st.1 ch r.1, r.2)) ([], data)

/-- Flattening done by `TelegramCollector.save_data`: `all_messages`
is the concatenation of the per-channel lists of `all_data`. -/
def tgFlatten (all : List (List Char × List MsgData)) : List MsgData :=
  (all.map Prod.snd).flatten

/- ===================== reddit_collector.py ===================== -/

/-- A raw Reddit submission as yielded by `subreddit.new`: `post.id`,
`post.created_utc`, `post.title`, `post.selftext`, `post.score`;
`malformed` models field extraction raising while building `post_data`. -/
structure RawPost where
  id : Nat
  created_utc : Nat
  title : List Char
  selftext : List Char
  score : Int
  malformed : Bool
deriving DecidableEq

/-- The `post_data` dictionary built by
`RedditCollector.collect_subreddit_posts` (fields relevant to the
claims). -/
structure PostData where
  post_id : Nat
  subreddit : List Char
  date : Nat
  title : List Char
  text : List Char
  score : Int
deriving DecidableEq

/-- Construction of `post_data` from a submission (reddit_collector.py
lines 85-98). -/
def redditNormalize (sub : List Char) (p : RawPost) : PostData :=
  { post_id := p.id
    subreddit := sub
    date := p.created_utc
    title := p.title
    text := p.selftext
    score := p.score }

/-- The date guard `if post_date < start_date or post_date > end_date:
continue` of the Reddit loop. -/
def redditDateSkip (s e : Nat) (p : RawPost) : Bool :=
  decide (p.created_utc < s) || decide (e < p.created_utc)

/-- The keyword guard of the Reddit loop: `if keywords:` (falsy for
`None` and for the empty list) then
`if not any(keyword.lower() in text_to_search for keyword in keywords):
continue` with `text_to_search = (post.title + " " + post.selftext).lower()`. -/
def redditKwReject (kw : Option (List (List Char))) (p : RawPost) : Bool :=
  match kw with
  | none => false
  | some ks =>
    if ks.isEmpty then false
    else !(ks.any (fun k =>
      decide ((lowerStr k) <:+: (lowerStr (p.title ++ [' '] ++ p.selftext)))))

/-- The `for post in subreddit.new(limit=max_posts)` loop body of
`collect_subreddit_posts`.  Returns the number of consumed items and
the `posts` list; when an item raises while building `post_data` the
exception escapes the loop, is caught, and the `posts` accumulated so
far are returned. -/
def redditLoop (sub : List Char) (s e : Nat) (kw : Option (List (List Char)))
    (acc : List PostData) : List RawPost → Nat × List PostData
  | [] => (0, acc)
  | p :: rest =>
    if redditDateSkip s e p then
      let r := redditLoop sub s e kw acc rest
      (r.1 + 1, r.2)
    else if redditKwReject kw p then
      let r := redditLoop sub s e kw acc rest
      (r.1 + 1, r.2)
    else if p.malformed then
      (1, acc)
    else
      let r := redditLoop sub s e kw (acc ++ [redditNormalize sub p]) rest
      (r.1 + 1, r.2)

/-- `RedditCollector.collect_subreddit_posts`.  `src` is the unlimited
listing behind `subreddit.new`; the `limit=max_posts` argument caps how
many items the listing yields. -/
def collect_subreddit_posts (sub : List Char) (s e : Nat)
    (kw : Option (List (List Char))) (max_posts : Nat)
    (src : List RawPost) : List PostData :=
  (redditLoop sub s e kw [] (src.take max_posts)).2

/- ===================== twitter_collector.py ===================== -/

/-- A raw tweet as yielded by `TwitterSearchScraper(query).get_items()`;
`malformed` models field extraction raising while building `tweet_data`. -/
structure RawTweet where
  id : Nat
  date : Nat
  username : List Char
  rawContent : List Char
  likeCount : Nat
  malformed : Bool
deriving DecidableEq

/-- The `tweet_data` dictionary built by
`TwitterCollector.collect_tweets_by_keyword` (fields relevant to the
claims; `keyword` records the query keyword). -/
structure TweetData where
  tweet_id : Nat
  date : Nat
  username : List Char
  text : List Char
  like_count : Nat
  keyword : List Char
deriving DecidableEq

/-- Construction of `tweet_data` from a tweet (twitter_collector.py
lines 57-71). -/
def twitterNormalize (kw : List Char) (t : RawTweet) : TweetData :=
  { tweet_id := t.id
    date := t.date
    username := t.username
    text := t.rawContent
    like_count := t.likeCount
    keyword := kw }

/-- The `for i, tweet in enumerate(...)` loop of
`collect_tweets_by_keyword`: break when `i >= max_tweets`; on an item
raising during extraction the exception escapes the loop, is caught,
and the `tweets` accumulated so far are returned. -/
def twitterLoop (kw : List Char) (max_tweets : Nat) (i : Nat)
    (acc : List TweetData) : List RawTweet → List TweetData
  | [] => acc
  | t :: rest =>
    if max_tweets ≤ i then acc
    else if t.malformed then acc
    else twitterLoop kw max_tweets (i + 1) (acc ++ [twitterNormalize kw t]) rest

/-- `TwitterCollector.collect_tweets_by_keyword`.  `src` is the
sequence the scraper yields for the query (the keyword and date bounds
are part of the remote query string, not checked locally). -/
def collect_tweets_by_keyword (kw : List Char) (max_tweets : Nat)
    (src : List RawTweet) : List TweetData :=
  twitterLoop kw max_tweets 0 [] src

/- ============ shared dict-comprehension deduplication ============ -/

/-- One assignment `d[key(a)] = a` on a Python insertion-ordered dict
whose values carry their own key: an existing entry with the same key
is overwritten in place, otherwise the entry is appended. -/
def pyDictInsert (key : α → Nat) (d : List α) (a : α) : List α :=
  if d.any (fun q => decide (key q = key a)) then
    d.map (fun q => if key q = key a then a else q)
  else d ++ [a]

/-- `list({key(a): a for a in l}.values())`: the dict-comprehension
deduplication used by the Reddit and Twitter collectors. -/
def pyDedup (key : α → Nat) (l : List α) : List α :=
  l.foldl (pyDictInsert key) []

/-- `unique_posts = {post['post_id']: post for post in all_posts}` then
`list(unique_posts.values())` (reddit_collector.py lines 236-237). -/
def dedupePosts (l : List PostData) : List PostData :=
  pyDedup (fun p => p.post_id) l

/-- `unique_tweets = {tweet['tweet_id']: tweet for tweet in all_tweets}`
then `list(unique_tweets.values())` (twitter_collector.py lines 110-111). -/
def dedupeTweets (l : List TweetData) : List TweetData :=
  pyDedup (fun t => t.tweet_id) l

/-- `RedditCollector.collect_from_multiple_subreddits`: concatenate the
per-subreddit collections, then deduplicate by `post_id`. -/
def collect_from_multiple_subreddits (subs : List (List Char)) (s e : Nat)
    (kw : Option (List (List Char))) (maxPer : Nat)
    (srcOf : List Char → List RawPost) : List PostData :=
  dedupePosts (subs.foldl
    (fun all sub => all ++ collect_subreddit_posts sub s e kw maxPer (srcOf sub)) [])

/-- `TwitterCollector.collect_tweets_multiple_keywords`: concatenate the
per-keyword collections, then deduplicate by `tweet_id`. -/
def collect_tweets_multiple_keywords (kws : List (List Char)) (maxPer : Nat)
    (srcOf : List Char → List RawTweet) : List TweetData :=
  dedupeTweets (kws.foldl
    (fun all kw => all ++ collect_tweets_by_keyword kw maxPer (srcOf kw)) [])

/- ================ data_collection_script.py : save_data ================ -/

/-- A record dictionary as passed to `SocialMediaDataCollector.save_data`:
an insertion-ordered mapping from field names to field values. -/
def Row : Type := List (List Char × List Char)

instance : DecidableEq Row := by
  unfold Row
  infer_instance

/-- Content of a file written by `save_data`: the JSON dump of the data,
or the CSV with the header row taken from the first record's keys. -/
inductive Payload where
  | json (data : List Row)
  | csv (header : List (List Char)) (data : List Row)
deriving DecidableEq

/-- The only exception relevant to `save_data`: referencing the local
variable `csv_path` when the `if data:` branch that binds it was not
taken. -/
inductive PyError where
  | nameError
deriving DecidableEq

/-- Python `os.path.join(a, b)` for a simple relative component. -/
def pathJoin (a b : List Char) : List Char := a ++ ['/'] ++ b

/-- `SocialMediaDataCollector.save_data(data, platform, filename)`.
`now` stands for `datetime.now().strftime(...)` used in the default
filename; `filename=None` (or empty, both falsy) selects the default.
Returns the files written in order together with the exception, if
any, that the function raises after writing them: the JSON dump is
written unconditionally; the CSV is written only when `data` is
non-empty; the final `print` references `csv_path`, which is unbound
when `data` is empty, raising `NameError` (data_collection_script.py
lines 224-239). -/
def save_data (output_dir : List Char) (data : List Row)
    (platform now : List Char) (filename : Option (List Char)) :
    List (List Char × Payload) × Option PyError :=
  let fn := match filename with
    | some f => if f.isEmpty then platform ++ "_data_".data ++ now else f
    | none => platform ++ "_data_".data ++ now
  let json_path := pathJoin output_dir (fn ++ ".json".data)
  match data with
  | [] => ([(json_path, Payload.json data)], some PyError.nameError)
  | d0 :: _ =>
    let csv_path := pathJoin output_dir (fn ++ ".csv".data)
    ([(json_path, Payload.json data),
      (csv_path, Payload.csv (d0.map Prod.fst) data)], none)

/- ====== spec-modelled CollectionEngine (no such code in the repo) ====== -/

/-- Modelled from the spec: terminal/task status of a `Checkpoint`
(spec section 3, "Checkpoint"); the repository has no checkpoint or
status code. -/
inductive TaskStatus where
  | inProgress
  | completed
  | failed
deriving DecidableEq

/-- Modelled from the spec: a durable progress marker with a cursor,
a collected-records count and a status (spec section 3, "Checkpoint");
the repository has no such type. -/
structure Checkpoint where
  cursor : Nat
  records_collected : Nat
  status : TaskStatus
deriving DecidableEq

/-- Modelled from the spec: the termination status assigned when the
engine stops because `records_collected >= max_records` (spec section
4.1, termination condition (c)); the repository tracks no status. -/
def runStatus (records_collected max_records : Nat) : TaskStatus :=
  if max_records ≤ records_collected then TaskStatus.completed
  else TaskStatus.inProgress

/-- Modelled from the spec: the engine's paginated fetch loop (spec
section 4.1, step 3), fuelled to stay total.  `fetch` maps a cursor to
a page of records and an optional next cursor.  Returns the emitted
records and the number of `fetch` calls made. -/
def engineLoop (fetch : Nat → List Nat × Option Nat) (max_records : Nat) :
    Nat → Nat → Nat → List Nat × Nat
  | 0, _, _ => ([], 0)
  | Nat.succ fuel, cursor, collected =>
    if max_records ≤ collected then ([], 0)
    else
      let page := fetch cursor
      match page.2 with
      | none => (page.1, 1)
      | some next =>
        let r := engineLoop fetch max_records fuel next (collected + page.1.length)
        (page.1 ++ r.1, r.2 + 1)

/-- Modelled from the spec: `CollectionEngine.run` step 1 (spec section
4.1): load the task's checkpoint; if its status is `Completed`, return
the empty sequence immediately without fetching; otherwise resume from
the checkpointed cursor (or start fresh when there is no checkpoint).
Returns the emitted records and the number of network fetches issued. -/
def engineRun (cp : Option Checkpoint) (fetch : Nat → List Nat × Option Nat)
    (max_records fuel : Nat) : List Nat × Nat :=
  match cp with
  | some c =>
    if c.status = TaskStatus.completed then ([], 0)
    else engineLoop fetch max_records fuel c.cursor c.records_collected
  | none => engineLoop fetch max_records fuel 0 0

/- ===================== helper lemmas ===================== -/

/-- A message passes both Telegram date guards exactly when its date
lies in the closed interval `[s, e]`. -/
lemma tgSkip_false_iff (s e : Nat) (m : RawMsg) :
    tgSkip (some s) (some e) m = false ↔ s ≤ m.date ∧ m.date ≤ e := by
  simp only [tgSkip, Bool.or_eq_false_iff, decide_eq_false_iff_not]
  omega

/-- Every message the Telegram loop returns was already accumulated or
lies in the closed date window. -/
lemma tgLoop_mem_window (ch : List Char) (s e : Nat) :
    ∀ (l : List RawMsg) (acc ms : List MsgData),
      (tgLoop ch (some s) (some e) acc l).2 = some ms →
      ∀ R ∈ ms, R ∈ acc ∨ (s ≤ R.timestamp ∧ R.timestamp ≤ e) := by
  intro l
  induction l with
  | nil =>
    intro acc ms h R hR
    simp only [tgLoop, Option.some.injEq] at h
    subst h
    exact Or.inl hR
  | cons m rest ih =>
    intro acc ms h R hR
    by_cases hs : tgSkip (some s) (some e) m
    · simp only [tgLoop, hs, if_true] at h
      exact ih acc ms h R hR
    · by_cases hm : m.malformed
      · simp only [tgLoop, hs, hm, if_true, if_false, Bool.false_eq_true] at h
        exact absurd h (by simp)
      · simp only [tgLoop, hs, hm, if_false, Bool.false_eq_true] at h
        rcases ih _ ms h R hR with hacc | hw
        · rcases List.mem_append.1 hacc with h1 | h2
          · exact Or.inl h1
          · right
            rcases List.mem_singleton.1 h2 with rfl
            have := (tgSkip_false_iff s e m).1 (Bool.not_eq_true _ ▸ hs)
            simpa [tgNormalize] using this
        · exact Or.inr hw

/-- The Telegram loop consumes every item of the iterator when no item
raises during normalization: out-of-window items are skipped with
`continue`, never used to stop iteration. -/
lemma tgLoop_count (ch : List Char) (s e : Option Nat) :
    ∀ (l : List RawMsg) (acc : List MsgData),
      (∀ m ∈ l, m.malformed = false) →
      (tgLoop ch s e acc l).1 = l.length := by
  intro l
  induction l with
  | nil => intro acc _; rfl
  | cons m rest ih =>
    intro acc h
    have hm : m.malformed = false := h m (List.mem_cons_self m rest)
    have hrest : ∀ x ∈ rest, x.malformed = false :=
      fun x hx => h x (List.mem_cons_of_mem m hx)
    by_cases hs : tgSkip s e m
    · simp only [tgLoop, hs, if_true, List.length_cons]
      rw [ih acc hrest]
    · simp only [tgLoop, hs, hm, if_false, Bool.false_eq_true, List.length_cons]
      rw [ih _ hrest]

/-- If some item of the iterator passes the Telegram date guards but
raises during normalization, the whole loop ends in the exception,
whatever came before or comes after it. -/
lemma tgLoop_trigger (ch : List Char) (s e : Option Nat) (bad : RawMsg)
    (hb : bad.malformed = true) (hsk : tgSkip s e bad = false) :
    ∀ (pre post : List RawMsg) (acc : List MsgData),
      (tgLoop ch s e acc (pre ++ bad :: post)).2 = none := by
  intro pre
  induction pre with
  | nil =>
    intro post acc
    simp only [List.nil_append, tgLoop, hsk, hb, if_true, if_false,
      Bool.false_eq_true]
  | cons m pre' ih =>
    intro post acc
    by_cases hs : tgSkip s e m
    · simp only [List.cons_append, tgLoop, hs, if_true]
      exact ih post acc
    · by_cases hm : m.malformed
      · simp only [List.cons_append, tgLoop, hs, hm, if_true, if_false,
          Bool.false_eq_true]
      · simp only [List.cons_append, tgLoop, hs, hm, if_false,
          Bool.false_eq_true]
        exact ih post _

/-- A post passes the Reddit date guard exactly when its timestamp lies
in the closed interval `[s, e]`. -/
lemma redditDateSkip_false_iff (s e : Nat) (p : RawPost) :
    redditDateSkip s e p = false ↔ s ≤ p.created_utc ∧ p.created_utc ≤ e := by
  simp only [redditDateSkip, Bool.or_eq_false_iff, decide_eq_false_iff_not]
  omega

/-- Every post the Reddit loop returns was already accumulated or lies
in the closed date window. -/
lemma redditLoop_mem_window (sub : List Char) (s e : Nat)
    (kw : Option (List (List Char))) :
    ∀ (l : List RawPost) (acc : List PostData) (R : PostData),
      R ∈ (redditLoop sub s e kw acc l).2 →
      R ∈ acc ∨ (s ≤ R.date ∧ R.date ≤ e) := by
  intro l
  induction l with
  | nil => intro acc R hR; exact Or.inl hR
  | cons p rest ih =>
    intro acc R hR
    by_cases hd : redditDateSkip s e p
    · simp only [redditLoop, hd, if_true] at hR
      exact ih acc R hR
    · by_cases hk : redditKwReject kw p
      · simp only [redditLoop, hd, hk, if_true, if_false, Bool.false_eq_true] at hR
        exact ih acc R hR
      · by_cases hm : p.malformed
        · simp only [redditLoop, hd, hk, hm, if_true, if_false,
            Bool.false_eq_true] at hR
          exact Or.inl hR
        · simp only [redditLoop, hd, hk, hm, if_false, Bool.false_eq_true] at hR
          rcases ih _ R hR with hacc | hw
          · rcases List.mem_append.1 hacc with h1 | h2
            · exact Or.inl h1
            · right
              rcases List.mem_singleton.1 h2 with rfl
              have := (redditDateSkip_false_iff s e p).1 (Bool.not_eq_true _ ▸ hd)
              simpa [redditNormalize] using this
          · exact Or.inr hw

/-- The Reddit loop consumes every item of the listing when no item
raises during normalization: out-of-window and keyword-rejected items
are skipped with `continue`, never used to stop iteration. -/
lemma redditLoop_count (sub : List Char) (s e : Nat)
    (kw : Option (List (List Char))) :
    ∀ (l : List RawPost) (acc : List PostData),
      (∀ p ∈ l, p.malformed = false) →
      (redditLoop sub s e kw acc l).1 = l.length := by
  intro l
  induction l with
  | nil => intro acc _; rfl
  | cons p rest ih =>
    intro acc h
    have hm : p.malformed = false := h p (List.mem_cons_self p rest)
    have hrest : ∀ x ∈ rest, x.malformed = false :=
      fun x hx => h x (List.mem_cons_of_mem p hx)
    by_cases hd : redditDateSkip s e p
    · simp only [redditLoop, hd, if_true, List.length_cons]
      rw [ih acc hrest]
    · by_cases hk : redditKwReject kw p
      · simp only [redditLoop, hd, hk, if_true, if_false, Bool.false_eq_true,
          List.length_cons]
        rw [ih acc hrest]
      · simp only [redditLoop, hd, hk, hm, if_false, Bool.false_eq_true,
          List.length_cons]
        rw [ih _ hrest]

/-- When no item raises, the Reddit loop is the filter by the two
guards followed by normalization. -/
lemma redditLoop_filter_map (sub : List Char) (s e : Nat)
    (kw : Option (List (List Char))) :
    ∀ (l : List RawPost) (acc : List PostData),
      (∀ p ∈ l, p.malformed = false) →
      (redditLoop sub s e kw acc l).2
        = acc ++ (l.filter
            (fun p => !(redditDateSkip s e p) && !(redditKwReject kw p))).map
            (redditNormalize sub) := by
  intro l
  induction l with
  | nil => intro acc _; simp [redditLoop]
  | cons p rest ih =>
    intro acc h
    have hm : p.malformed = false := h p (List.mem_cons_self p rest)
    have hrest : ∀ x ∈ rest, x.malformed = false :=
      fun x hx => h x (List.mem_cons_of_mem p hx)
    by_cases hd : redditDateSkip s e p
    · simp only [redditLoop, hd, if_true, List.filter_cons, Bool.not_true,
        Bool.false_and, if_false, Bool.false_eq_true]
      exact ih acc hrest
    · by_cases hk : redditKwReject kw p
      · simp only [redditLoop, hd, hk, if_true, if_false, Bool.false_eq_true,
          List.filter_cons, Bool.not_true, Bool.not_false, Bool.true_and,
          Bool.and_false]
        exact ih acc hrest
      · simp only [redditLoop, hd, hk, hm, if_false, Bool.false_eq_true,
          List.filter_cons, Bool.not_false, Bool.true_and, if_true,
          List.map_cons]
        rw [ih _ hrest]
        simp

/-- If some listing item passes both Reddit guards but raises during
normalization, the loop's result is exactly what was collected before
that item; everything after it is dropped. -/
lemma redditLoop_trigger (sub : List Char) (s e : Nat)
    (kw : Option (List (List Char))) (bad : RawPost)
    (hb : bad.malformed = true) (hd : redditDateSkip s e bad = false)
    (hk : redditKwReject kw bad = false) :
    ∀ (pre post : List RawPost) (acc : List PostData),
      (redditLoop sub s e kw acc (pre ++ bad :: post)).2
        = (redditLoop sub s e kw acc pre).2 := by
  intro pre
  induction pre with
  | nil =>
    intro post acc
    simp only [List.nil_append, redditLoop, hd, hb, hk, if_true, if_false,
      Bool.false_eq_true]
  | cons p pre' ih =>
    intro post acc
    by_cases hpd : redditDateSkip s e p
    · simp only [List.cons_append, redditLoop, hpd, if_true]
      exact ih post acc
    · by_cases hpk : redditKwReject kw p
      · simp only [List.cons_append, redditLoop, hpd, hpk, if_true, if_false,
          Bool.false_eq_true]
        exact ih post acc
      · by_cases hpm : p.malformed
        · simp only [List.cons_append, redditLoop, hpd, hpk, hpm, if_true,
            if_false, Bool.false_eq_true]
        · simp only [List.cons_append, redditLoop, hpd, hpk, hpm, if_false,
            Bool.false_eq_true]
          exact ih post _

/-- When no tweet raises, the Twitter loop appends the normalization of
the first `max_tweets - i` tweets: no local date or keyword filtering
takes place. -/
lemma twitterLoop_take (kw : List Char) (maxT : Nat) :
    ∀ (l : List RawTweet) (i : Nat) (acc : List TweetData),
      (∀ t ∈ l, t.malformed = false) →
      twitterLoop kw maxT i acc l
        = acc ++ (l.take (maxT - i)).map (twitterNormalize kw) := by
  intro l
  induction l with
  | nil => intro i acc _; simp [twitterLoop]
  | cons t rest ih =>
    intro i acc h
    have hm : t.malformed = false := h t (List.mem_cons_self t rest)
    have hrest : ∀ x ∈ rest, x.malformed = false :=
      fun x hx => h x (List.mem_cons_of_mem t hx)
    by_cases hi : maxT ≤ i
    · have h0 : maxT - i = 0 := Nat.sub_eq_zero_of_le hi
      simp [twitterLoop, hi, h0]
    · obtain ⟨k, hk⟩ : ∃ k, maxT - i = k + 1 := ⟨maxT - i - 1, by omega⟩
      have hk' : maxT - (i + 1) = k := by omega
      simp only [twitterLoop, hi, hm, if_false, Bool.false_eq_true, hk,
        List.take_succ_cons, List.map_cons]
      rw [ih (i + 1) _ hrest, hk']
      simp

/- ======= spec-side keyword-retention predicate (for comparison) ======= -/

/-- Keyword retention as the spec states it: with no keyword set (or an
empty one) every record is retained; otherwise a record is retained iff
some keyword is a case-insensitive substring of the searched text. -/
def keywordRetainB (kw : Option (List (List Char))) (text : List Char) : Bool :=
  match kw with
  | none => true
  | some ks =>
    decide (ks = []) || ks.any (fun k => decide (lowerStr k <:+: lowerStr text))

/-- The Reddit keyword guard rejects exactly the records the spec-side
retention predicate does not retain. -/
lemma redditKwReject_eq (kw : Option (List (List Char))) (p : RawPost) :
    redditKwReject kw p
      = !keywordRetainB kw (p.title ++ [' '] ++ p.selftext) := by
  cases kw with
  | none => simp [redditKwReject, keywordRetainB]
  | some ks =>
    cases ks with
    | nil => simp [redditKwReject, keywordRetainB]
    | cons k ks' => simp [redditKwReject, keywordRetainB]

/-- The combined Reddit guard predicate is the closed date window
conjoined with spec-side keyword retention. -/
lemma redditRetain_eq (s e : Nat) (kw : Option (List (List Char)))
    (p : RawPost) :
    (!(redditDateSkip s e p) && !(redditKwReject kw p))
      = (decide (s ≤ p.created_utc ∧ p.created_utc ≤ e)
          && keywordRetainB kw (p.title ++ [' '] ++ p.selftext)) := by
  rw [redditKwReject_eq, Bool.not_not]
  congr 1
  by_cases h : s ≤ p.created_utc ∧ p.created_utc ≤ e
  · have h1 : ¬(p.created_utc < s) := by omega
    have h2 : ¬(e < p.created_utc) := by omega
    simp [redditDateSkip, h, h1, h2]
  · have h' : p.created_utc < s ∨ e < p.created_utc := by omega
    simp only [redditDateSkip, h, decide_False, Bool.not_eq_false',
      Bool.or_eq_true, decide_eq_true_eq]
    exact h'

/-- Python dict assignment leaves an entry with a different key alone. -/
lemma pyDictInsert_cons_ne (key : α → Nat) (q : α) (d : List α) (a : α)
    (hq : key q ≠ key a) :
    pyDictInsert key (q :: d) a = q :: pyDictInsert key d a := by
  unfold pyDictInsert
  by_cases han : d.any (fun x => decide (key x = key a)) <;>
    simp [List.any_cons, hq, han]

/-- Overwriting the entries for one key does not change lookups of a
different key. -/
lemma find?_map_update_ne (key : α → Nat) (a : α) (k : Nat)
    (hk : key a ≠ k) :
    ∀ d : List α,
      ((d.map (fun q => if key q = key a then a else q)).find?
        (fun q => decide (key q = k)))
        = d.find? (fun q => decide (key q = k)) := by
  intro d
  induction d with
  | nil => rfl
  | cons q d ih =>
    by_cases hq : key q = key a
    · rw [List.map_cons, if_pos hq, List.find?_cons_of_neg _ (by simp [hk]),
        List.find?_cons_of_neg _ (by simp [hq, hk]), ih]
    · rw [List.map_cons, if_neg hq]
      by_cases hqk : key q = k
      · rw [List.find?_cons_of_pos _ (by simp [hqk]),
          List.find?_cons_of_pos _ (by simp [hqk])]
      · rw [List.find?_cons_of_neg _ (by simp [hqk]),
          List.find?_cons_of_neg _ (by simp [hqk]), ih]

/-- Lookup after one Python dict assignment `d[key(a)] = a`: the key of
`a` now maps to `a`; other keys are unchanged. -/
lemma find?_pyDictInsert (key : α → Nat) (a : α) (k : Nat) :
    ∀ d : List α,
      ((pyDictInsert key d a).find? (fun q => decide (key q = k)))
        = (if key a = k then some a else none).or
            (d.find? (fun q => decide (key q = k))) := by
  intro d
  induction d with
  | nil =>
    by_cases hak : key a = k <;> simp [pyDictInsert, hak]
  | cons q d ih =>
    by_cases hq : key q = key a
    · have hins : pyDictInsert key (q :: d) a
          = a :: d.map (fun x => if key x = key a then a else x) := by
        unfold pyDictInsert
        simp [List.any_cons, hq]
      rw [hins]
      by_cases hak : key a = k
      · rw [List.find?_cons_of_pos _ (by simp [hak]), if_pos hak]
        simp
      · rw [List.find?_cons_of_neg _ (by simp [hak]),
          find?_map_update_ne key a k hak d, if_neg hak, Option.none_or,
          List.find?_cons_of_neg _ (by simp [hq, hak])]
    · rw [pyDictInsert_cons_ne key q d a hq]
      by_cases hqk : key q = k
      · have hak : key a ≠ k := fun h => hq (hqk.trans h.symm)
        rw [List.find?_cons_of_pos _ (by simp [hqk]),
          List.find?_cons_of_pos _ (by simp [hqk]), if_neg hak,
          Option.none_or]
      · rw [List.find?_cons_of_neg _ (by simp [hqk]),
          List.find?_cons_of_neg _ (by simp [hqk]), ih]

/-- Lookup in the dict built by folding Python assignments over a list:
the latest assignment for a key wins. -/
lemma find?_foldl_pyDictInsert (key : α → Nat) (k : Nat) :
    ∀ (l d : List α),
      ((l.foldl (pyDictInsert key) d).find? (fun q => decide (key q = k)))
        = (l.reverse.find? (fun q => decide (key q = k))).or
            (d.find? (fun q => decide (key q = k))) := by
  intro l
  induction l with
  | nil => intro d; simp
  | cons a l ih =>
    intro d
    rw [List.foldl_cons, ih (pyDictInsert key d a), find?_pyDictInsert,
      List.reverse_cons, List.find?_append, Option.or_assoc]
    congr 1
    by_cases hak : key a = k <;> simp [hak]

/-- The record surviving dict-comprehension deduplication under a key
is the last record with that key in the original order. -/
lemma find?_pyDedup (key : α → Nat) (k : Nat) (l : List α) :
    (pyDedup key l).find? (fun q => decide (key q = k))
      = l.reverse.find? (fun q => decide (key q = k)) := by
  unfold pyDedup
  rw [find?_foldl_pyDictInsert]
  simp

/-- Python dict assignment preserves distinctness of keys. -/
lemma pyDictInsert_pairwise (key : α → Nat) {d : List α} (a : α)
    (h : d.Pairwise (fun x y => key x ≠ key y)) :
    (pyDictInsert key d a).Pairwise (fun x y => key x ≠ key y) := by
  unfold pyDictInsert
  by_cases han : d.any (fun q => decide (key q = key a))
  · rw [if_pos han]
    refine List.Pairwise.map _ (fun x y hxy => ?_) h
    have kx : key (if key x = key a then a else x) = key x := by
      by_cases hx : key x = key a <;> simp [hx]
    have ky : key (if key y = key a then a else y) = key y := by
      by_cases hy : key y = key a <;> simp [hy]
    rw [kx, ky]
    exact hxy
  · rw [if_neg han, List.pairwise_append]
    refine ⟨h, List.pairwise_singleton _ _, ?_⟩
    intro x hx y hy
    rw [List.mem_singleton] at hy
    subst hy
    intro hxa
    exact han (List.any_eq_true.2 ⟨x, hx, by simp [hxa]⟩)

/-- The dict built by dict-comprehension deduplication has pairwise
distinct keys. -/
lemma pyDedup_pairwise (key : α → Nat) (l : List α) :
    (pyDedup key l).Pairwise (fun x y => key x ≠ key y) := by
  unfold pyDedup
  have aux : ∀ (l d : List α), d.Pairwise (fun x y => key x ≠ key y) →
      (l.foldl (pyDictInsert key) d).Pairwise (fun x y => key x ≠ key y) := by
    intro l
    induction l with
    | nil => intro d hd; exact hd
    | cons a l ih =>
      intro d hd
      exact ih _ (pyDictInsert_pairwise key a hd)
  exact aux l [] List.Pairwise.nil

/-- In a list with pairwise distinct keys, two members with the same
key are the same element. -/
lemma pairwise_key_inj (key : α → Nat) :
    ∀ {l : List α}, l.Pairwise (fun x y => key x ≠ key y) →
      ∀ a ∈ l, ∀ b ∈ l, key a = key b → a = b := by
  intro l
  induction l with
  | nil => intro _ a ha; exact absurd ha (List.not_mem_nil a)
  | cons x l ih =>
    intro h a ha b hb hab
    rw [List.pairwise_cons] at h
    rcases List.mem_cons.1 ha with rfl | ha'
    · rcases List.mem_cons.1 hb with rfl | hb'
      · rfl
      · exact absurd hab (h.1 b hb')
    · rcases List.mem_cons.1 hb with rfl | hb'
      · exact absurd hab.symm (h.1 a ha')
      · exact ih h.2 a ha' b hb' hab

/- ===================== claim theorems ===================== -/

/-- C1 (counterexample): the date filter is not half-open.  A Telegram
message and a Reddit post whose timestamp equals the end bound 10 are
both emitted, so not every emitted record satisfies `authored_at < end`
as the claim states. -/
theorem c1_counterexample :
    ¬ (∀ R ∈ (collect_channel_messages ['a'] (some 0) (some 10) none
        [⟨1, 10, some ['x'], some 0, some 0, false⟩] []).1, R.timestamp < 10)
    ∧ ¬ (∀ R ∈ collect_subreddit_posts ['r'] 0 10 none 100
        [⟨1, 10, ['t'], ['s'], 0, false⟩], R.date < 10) := by
  decide

/-- C1 (amended): the date guards accept a timestamp iff it lies in the
CLOSED interval `[start, end]` (a null bound meaning unbounded), so for
non-null bounds every record produced by `collect_channel_messages` or
`collect_subreddit_posts` satisfies `start <= timestamp <= end`; a
record with timestamp equal to the end bound may be emitted. -/
theorem c1_closed_window :
    (∀ (ch : List Char) (s e : Nat) (lim : Option Nat) (src : List RawMsg)
        (data : List MsgData) (R : MsgData),
      R ∈ (collect_channel_messages ch (some s) (some e) lim src data).1 →
      s ≤ R.timestamp ∧ R.timestamp ≤ e)
    ∧ (∀ (sub : List Char) (s e : Nat) (kw : Option (List (List Char)))
        (maxp : Nat) (src : List RawPost) (R : PostData),
      R ∈ collect_subreddit_posts sub s e kw maxp src →
      s ≤ R.date ∧ R.date ≤ e) := by
  constructor
  · intro ch s e lim src data R hR
    simp only [collect_channel_messages] at hR
    generalize hf : (match lim with | some n => List.take n src | none => src)
        = fetched at hR
    rcases h2 : (tgLoop ch (some s) (some e) [] fetched).2 with _ | ms
    · rw [h2] at hR
      simp at hR
    · rw [h2] at hR
      simp only at hR
      rcases tgLoop_mem_window ch s e fetched [] ms h2 R hR with h | h
      · exact absurd h (List.not_mem_nil R)
      · exact h
  · intro sub s e kw maxp src R hR
    unfold collect_subreddit_posts at hR
    rcases redditLoop_mem_window sub s e kw (src.take maxp) [] R hR with h | h
    · exact absurd h (List.not_mem_nil R)
    · exact h

/-- C1 (witness): the amended closed-window theorem applied to a
concrete in-window Telegram message. -/
theorem c1_closed_window_witness :
    (⟨1, ['a'], ['x'], 5, 0, 0⟩ : MsgData) ∈ (collect_channel_messages ['a']
        (some 3) (some 10) none [⟨1, 5, some ['x'], some 0, some 0, false⟩] []).1
    ∧ 3 ≤ (⟨1, ['a'], ['x'], 5, 0, 0⟩ : MsgData).timestamp
    ∧ (⟨1, ['a'], ['x'], 5, 0, 0⟩ : MsgData).timestamp ≤ 10 :=
  ⟨by decide, c1_closed_window.1 ['a'] 3 10 none
    [⟨1, 5, some ['x'], some 0, some 0, false⟩] [] _ (by decide)⟩

/-- C2 (counterexample): `collect_from_multiple_channels` applies no
deduplication.  Two channels each carry a message with `message_id = 1`
but different text; both records appear in the flattened output of one
run, so two records with the same identifier (same platform, same kind)
are not the same record. -/
theorem c2_counterexample :
    tgFlatten (collect_from_multiple_channels [['a'], ['b']] (some 0) (some 10)
        none
        (fun ch => if ch = ['a']
          then [⟨1, 5, some ['x'], some 0, some 0, false⟩]
          else [⟨1, 5, some ['y'], some 0, some 0, false⟩]) []).1
      = [⟨1, ['a'], ['x'], 5, 0, 0⟩, ⟨1, ['b'], ['y'], 5, 0, 0⟩]
    ∧ (⟨1, ['a'], ['x'], 5, 0, 0⟩ : MsgData).message_id
        = (⟨1, ['b'], ['y'], 5, 0, 0⟩ : MsgData).message_id
    ∧ (⟨1, ['a'], ['x'], 5, 0, 0⟩ : MsgData) ≠ ⟨1, ['b'], ['y'], 5, 0, 0⟩ := by
  refine ⟨rfl, rfl, ?_⟩
  decide

/-- C2 (amended): the deduplicator invariant holds for the combined
output of `collect_from_multiple_subreddits` and of
`collect_tweets_multiple_keywords` — two output records with the same
identifier are the same record — but `collect_from_multiple_channels`
filters nothing, so the invariant does not extend to Telegram. -/
theorem c2_dedup_invariant :
    (∀ (subs : List (List Char)) (s e : Nat) (kw : Option (List (List Char)))
        (maxPer : Nat) (srcOf : List Char → List RawPost) (r1 r2 : PostData),
      r1 ∈ collect_from_multiple_subreddits subs s e kw maxPer srcOf →
      r2 ∈ collect_from_multiple_subreddits subs s e kw maxPer srcOf →
      r1.post_id = r2.post_id → r1 = r2)
    ∧ (∀ (kws : List (List Char)) (maxT : Nat)
        (srcOf : List Char → List RawTweet) (t1 t2 : TweetData),
      t1 ∈ collect_tweets_multiple_keywords kws maxT srcOf →
      t2 ∈ collect_tweets_multiple_keywords kws maxT srcOf →
      t1.tweet_id = t2.tweet_id → t1 = t2) := by
  constructor
  · intro subs s e kw maxPer srcOf r1 r2 h1 h2 hid
    unfold collect_from_multiple_subreddits dedupePosts at h1 h2
    exact pairwise_key_inj (fun p : PostData => p.post_id)
      (pyDedup_pairwise (fun p : PostData => p.post_id) _) r1 h1 r2 h2 hid
  · intro kws maxT srcOf t1 t2 h1 h2 hid
    unfold collect_tweets_multiple_keywords dedupeTweets at h1 h2
    exact pairwise_key_inj (fun t : TweetData => t.tweet_id)
      (pyDedup_pairwise (fun t : TweetData => t.tweet_id) _) t1 h1 t2 h2 hid

/-- C2 (witness): the amended deduplicator invariant applied to a
concrete Reddit run in which two listing posts share `post_id = 1`. -/
theorem c2_dedup_invariant_witness :
    (⟨1, ['r'], 6, ['u'], ['v'], 0⟩ : PostData) ∈
        collect_from_multiple_subreddits [['r']] 0 10 none 10
          (fun _ => [⟨1, 5, ['t'], ['s'], 0, false⟩,
                     ⟨1, 6, ['u'], ['v'], 0, false⟩])
    ∧ (⟨1, ['r'], 6, ['u'], ['v'], 0⟩ : PostData)
        = ⟨1, ['r'], 6, ['u'], ['v'], 0⟩ :=
  ⟨by decide, c2_dedup_invariant.1 [['r']] 0 10 none 10
    (fun _ => [⟨1, 5, ['t'], ['s'], 0, false⟩, ⟨1, 6, ['u'], ['v'], 0, false⟩])
    _ _ (by decide) (by decide) rfl⟩

/-- C3 (counterexample): both loops keep iterating after crossing the
older boundary.  The source is reverse-chronological with timestamps
5, 1, 0 and the window is `[3, 10]`: the second item already falls
before the start bound, so an early-stopping engine would consume at
most 2 items, yet both loops consume all 3. -/
theorem c3_counterexample :
    ¬ ((tgLoop ['a'] (some 3) (some 10) []
        [⟨1, 5, some ['x'], some 0, some 0, false⟩,
         ⟨2, 1, some ['y'], some 0, some 0, false⟩,
         ⟨3, 0, some ['z'], some 0, some 0, false⟩]).1 ≤ 2)
    ∧ ¬ ((redditLoop ['r'] 3 10 none []
        [⟨1, 5, ['t'], ['s'], 0, false⟩,
         ⟨2, 1, ['t'], ['s'], 0, false⟩,
         ⟨3, 0, ['t'], ['s'], 0, false⟩]).1 ≤ 2) := by
  decide

/-- C3 (amended): an item older than `start_date` is skipped with
`continue` and iteration goes on: whenever no item raises during
normalization, the Telegram and Reddit loops consume every item the
iterator supplies, regardless of any date-window crossing. -/
theorem c3_no_early_stop :
    (∀ (ch : List Char) (s e : Option Nat) (l : List RawMsg)
        (acc : List MsgData),
      (∀ m ∈ l, m.malformed = false) → (tgLoop ch s e acc l).1 = l.length)
    ∧ (∀ (sub : List Char) (s e : Nat) (kw : Option (List (List Char)))
        (l : List RawPost) (acc : List PostData),
      (∀ p ∈ l, p.malformed = false) →
      (redditLoop sub s e kw acc l).1 = l.length) :=
  ⟨fun ch s e l acc h => tgLoop_count ch s e l acc h,
   fun sub s e kw l acc h => redditLoop_count sub s e kw l acc h⟩

/-- C3 (witness): the amended no-early-stop theorem applied to the
concrete reverse-chronological source of the counterexample. -/
theorem c3_no_early_stop_witness :
    (∀ m ∈ [(⟨1, 5, some ['x'], some 0, some 0, false⟩ : RawMsg),
        ⟨2, 1, some ['y'], some 0, some 0, false⟩,
        ⟨3, 0, some ['z'], some 0, some 0, false⟩], m.malformed = false)
    ∧ (tgLoop ['a'] (some 3) (some 10) []
        [⟨1, 5, some ['x'], some 0, some 0, false⟩,
         ⟨2, 1, some ['y'], some 0, some 0, false⟩,
         ⟨3, 0, some ['z'], some 0, some 0, false⟩]).1
      = [(⟨1, 5, some ['x'], some 0, some 0, false⟩ : RawMsg),
         ⟨2, 1, some ['y'], some 0, some 0, false⟩,
         ⟨3, 0, some ['z'], some 0, some 0, false⟩].length :=
  ⟨by decide, c3_no_early_stop.1 ['a'] (some 3) (some 10) _ [] (by decide)⟩

/-- C4: with a supply of at least `N` well-formed items that all pass
the local filters, `collect_tweets_by_keyword` with `max_tweets = N`
emits exactly `N` tweets, `collect_subreddit_posts` with
`max_posts = N` emits exactly `N` posts, and (per the spec-modelled
status rule, the repository tracking no status itself) a task that
reached its target count terminates `Completed`. -/
theorem c4_exactly_max (kwT sub : List Char) (s e N : Nat)
    (kw : Option (List (List Char))) (srcT : List RawTweet)
    (srcR : List RawPost)
    (hT : ∀ t ∈ srcT, t.malformed = false) (hTN : N ≤ srcT.length)
    (hR : ∀ p ∈ srcR, p.malformed = false ∧ redditDateSkip s e p = false ∧
      redditKwReject kw p = false)
    (hRN : N ≤ srcR.length) :
    (collect_tweets_by_keyword kwT N srcT).length = N
    ∧ (collect_subreddit_posts sub s e kw N srcR).length = N
    ∧ runStatus N N = TaskStatus.completed := by
  refine ⟨?_, ?_, ?_⟩
  · unfold collect_tweets_by_keyword
    rw [twitterLoop_take kwT N srcT 0 [] hT]
    simp only [List.nil_append, List.length_map, List.length_take,
      Nat.sub_zero]
    omega
  · unfold collect_subreddit_posts
    rw [redditLoop_filter_map sub s e kw (srcR.take N) []
      (fun p hp => (hR p (List.take_subset N srcR hp)).1)]
    rw [List.filter_eq_self.2 (fun p hp => by
      have h := hR p (List.take_subset N srcR hp)
      simp [h.2.1, h.2.2])]
    simp only [List.nil_append, List.length_map, List.length_take]
    omega
  · simp [runStatus]

/-- C4 (witness): the exact-count theorem applied to concrete
three-item supplies with `N = 2`. -/
theorem c4_exactly_max_witness :
    (collect_tweets_by_keyword ['g'] 2
        [⟨1, 5, ['u'], ['h'], 0, false⟩, ⟨2, 6, ['u'], ['h'], 0, false⟩,
         ⟨3, 7, ['u'], ['h'], 0, false⟩]).length = 2
    ∧ (collect_subreddit_posts ['r'] 0 10 none 2
        [⟨1, 5, ['t'], ['s'], 0, false⟩, ⟨2, 6, ['t'], ['s'], 0, false⟩,
         ⟨3, 7, ['t'], ['s'], 0, false⟩]).length = 2
    ∧ runStatus 2 2 = TaskStatus.completed :=
  c4_exactly_max ['g'] ['r'] 0 10 2 none
    [⟨1, 5, ['u'], ['h'], 0, false⟩, ⟨2, 6, ['u'], ['h'], 0, false⟩,
     ⟨3, 7, ['u'], ['h'], 0, false⟩]
    [⟨1, 5, ['t'], ['s'], 0, false⟩, ⟨2, 6, ['t'], ['s'], 0, false⟩,
     ⟨3, 7, ['t'], ['s'], 0, false⟩]
    (by decide) (by decide) (by decide) (by decide)

/-- C5 (counterexample): one bad item aborts the rest of its page.  A
listing whose first item raises during normalization yields nothing,
although its second item is collected when presented alone; the
Telegram loop behaves the same way. -/
theorem c5_counterexample :
    collect_subreddit_posts ['r'] 0 10 none 100
        [⟨1, 5, ['t'], ['s'], 0, true⟩, ⟨2, 5, ['t'], ['s'], 0, false⟩] = []
    ∧ collect_subreddit_posts ['r'] 0 10 none 100
        [⟨2, 5, ['t'], ['s'], 0, false⟩] = [⟨2, ['r'], 5, ['t'], ['s'], 0⟩]
    ∧ (collect_channel_messages ['a'] (some 0) (some 10) none
        [⟨1, 5, some ['x'], some 0, some 0, true⟩,
         ⟨2, 5, some ['y'], some 0, some 0, false⟩] []).1 = [] := by
  refine ⟨rfl, rfl, rfl⟩

/-- C5 (amended): an item that passes the guards but raises during
normalization aborts the remainder of its source: the Reddit result
equals the result on the truncated listing that ends at the bad item
(everything after it is never collected), and the Telegram result is
likewise independent of the items after the bad one. -/
theorem c5_abort_remainder (sub : List Char) (s e : Nat)
    (kw : Option (List (List Char))) (bad : RawPost)
    (hb : bad.malformed = true) (hd : redditDateSkip s e bad = false)
    (hk : redditKwReject kw bad = false)
    (pre post : List RawPost) (acc : List PostData)
    (ch : List Char) (s' e' : Option Nat) (badM : RawMsg)
    (hbM : badM.malformed = true) (hsM : tgSkip s' e' badM = false)
    (preM postM : List RawMsg) (data : List MsgData) :
    (redditLoop sub s e kw acc (pre ++ bad :: post)).2
        = (redditLoop sub s e kw acc (pre ++ [bad])).2
    ∧ collect_channel_messages ch s' e' none (preM ++ badM :: postM) data
        = collect_channel_messages ch s' e' none (preM ++ [badM]) data := by
  constructor
  · rw [redditLoop_trigger sub s e kw bad hb hd hk pre post acc,
      redditLoop_trigger sub s e kw bad hb hd hk pre [] acc]
  · simp only [collect_channel_messages]
    rw [tgLoop_trigger ch s' e' badM hbM hsM preM postM [],
      tgLoop_trigger ch s' e' badM hbM hsM preM [] []]

/-- C5 (witness): the abort-remainder theorem applied to a concrete
source with one bad item between two good ones. -/
theorem c5_abort_remainder_witness :
    (redditLoop ['r'] 0 10 none []
        [⟨1, 5, ['t'], ['s'], 0, false⟩, ⟨2, 5, ['t'], ['s'], 0, true⟩,
         ⟨3, 5, ['t'], ['s'], 0, false⟩]).2
      = (redditLoop ['r'] 0 10 none []
          [⟨1, 5, ['t'], ['s'], 0, false⟩, ⟨2, 5, ['t'], ['s'], 0, true⟩]).2
    ∧ collect_channel_messages ['a'] (some 0) (some 10) none
        [⟨1, 5, some ['x'], some 0, some 0, false⟩,
         ⟨2, 5, some ['y'], some 0, some 0, true⟩,
         ⟨3, 5, some ['z'], some 0, some 0, false⟩] []
      = collect_channel_messages ['a'] (some 0) (some 10) none
          [⟨1, 5, some ['x'], some 0, some 0, false⟩,
           ⟨2, 5, some ['y'], some 0, some 0, true⟩] [] :=
  c5_abort_remainder ['r'] 0 10 none ⟨2, 5, ['t'], ['s'], 0, true⟩
    (by decide) (by decide) (by decide)
    [⟨1, 5, ['t'], ['s'], 0, false⟩] [⟨3, 5, ['t'], ['s'], 0, false⟩] []
    ['a'] (some 0) (some 10) ⟨2, 5, some ['y'], some 0, some 0, true⟩
    (by decide) (by decide)
    [⟨1, 5, some ['x'], some 0, some 0, false⟩]
    [⟨3, 5, some ['z'], some 0, some 0, false⟩] []

/-- C6 (counterexample): Telegram loses progress on failure.  A channel
yields one good in-window message and then an item that raises: the
function returns `[]` and `self.data` stays empty, although the good
message had been collected before the error (it is returned when the
source ends after it). -/
theorem c6_counterexample :
    collect_channel_messages ['a'] (some 0) (some 10) none
        [⟨1, 5, some ['x'], some 0, some 0, false⟩,
         ⟨2, 5, some ['y'], some 0, some 0, true⟩] [] = ([], [])
    ∧ (collect_channel_messages ['a'] (some 0) (some 10) none
        [⟨1, 5, some ['x'], some 0, some 0, false⟩] []).1
      = [⟨1, ['a'], ['x'], 5, 0, 0⟩] := by
  refine ⟨rfl, rfl⟩

/-- C6 (amended): on a mid-iteration exception
`collect_subreddit_posts` preserves and returns the posts accumulated
before the failing item, but `collect_channel_messages` returns the
empty list and leaves the collector state `self.data` unchanged — the
prior Telegram progress of that channel is discarded. -/
theorem c6_progress_on_failure (sub : List Char) (s e : Nat)
    (kw : Option (List (List Char))) (bad : RawPost)
    (hb : bad.malformed = true) (hd : redditDateSkip s e bad = false)
    (hk : redditKwReject kw bad = false)
    (pre post : List RawPost) (acc : List PostData)
    (ch : List Char) (s' e' : Option Nat) (badM : RawMsg)
    (hbM : badM.malformed = true) (hsM : tgSkip s' e' badM = false)
    (preM postM : List RawMsg) (data : List MsgData) :
    (redditLoop sub s e kw acc (pre ++ bad :: post)).2
        = (redditLoop sub s e kw acc pre).2
    ∧ collect_channel_messages ch s' e' none (preM ++ badM :: postM) data
        = ([], data) := by
  constructor
  · exact redditLoop_trigger sub s e kw bad hb hd hk pre post acc
  · simp only [collect_channel_messages]
    rw [tgLoop_trigger ch s' e' badM hbM hsM preM postM []]

/-- C6 (witness): the progress theorem applied to a concrete source
with one good item before the failing one. -/
theorem c6_progress_on_failure_witness :
    (redditLoop ['r'] 0 10 none []
        [⟨1, 5, ['t'], ['s'], 0, false⟩, ⟨2, 5, ['t'], ['s'], 0, true⟩,
         ⟨3, 5, ['t'], ['s'], 0, false⟩]).2
      = (redditLoop ['r'] 0 10 none [] [⟨1, 5, ['t'], ['s'], 0, false⟩]).2
    ∧ collect_channel_messages ['a'] (some 0) (some 10) none
        [⟨1, 5, some ['x'], some 0, some 0, false⟩,
         ⟨2, 5, some ['y'], some 0, some 0, true⟩,
         ⟨3, 5, some ['z'], some 0, some 0, false⟩] []
      = ([], []) :=
  c6_progress_on_failure ['r'] 0 10 none ⟨2, 5, ['t'], ['s'], 0, true⟩
    (by decide) (by decide) (by decide)
    [⟨1, 5, ['t'], ['s'], 0, false⟩] [⟨3, 5, ['t'], ['s'], 0, false⟩] []
    ['a'] (some 0) (some 10) ⟨2, 5, some ['y'], some 0, some 0, true⟩
    (by decide) (by decide)
    [⟨1, 5, some ['x'], some 0, some 0, false⟩]
    [⟨3, 5, some ['z'], some 0, some 0, false⟩] []

/-- C7 (counterexample): keyword filtering is not uniform across the
collectors.  The Twitter collector emits a tweet whose text does not
contain the supplied keyword case-insensitively: the keyword only goes
into the remote query string and is never checked locally. -/
theorem c7_counterexample :
    collect_tweets_by_keyword ['g', 'a', 'z', 'a'] 5
        [⟨1, 5, ['u'], ['h', 'i'], 0, false⟩]
      = [⟨1, 5, ['u'], ['h', 'i'], 0, ['g', 'a', 'z', 'a']⟩]
    ∧ ¬ (lowerStr ['g', 'a', 'z', 'a'] <:+: lowerStr ['h', 'i']) := by
  refine ⟨rfl, ?_⟩
  decide

/-- C7 (amended): the claimed retention semantics — keep a record iff
the keyword set is `None`/empty or some keyword is a case-insensitive
substring of the searched text — holds exactly for the Reddit
collector, whose output is the closed-window-and-keyword filter of the
capped listing followed by normalization; the Twitter collector applies
no local keyword (or date) filter at all and emits every fetched tweet
up to the cap. -/
theorem c7_keyword_semantics (sub : List Char) (s e : Nat)
    (kw : Option (List (List Char))) (maxp : Nat) (srcR : List RawPost)
    (kwT : List Char) (maxT : Nat) (srcT : List RawTweet)
    (hR : ∀ p ∈ srcR, p.malformed = false)
    (hT : ∀ t ∈ srcT, t.malformed = false) :
    collect_subreddit_posts sub s e kw maxp srcR
      = ((srcR.take maxp).filter (fun p =>
          decide (s ≤ p.created_utc ∧ p.created_utc ≤ e)
            && keywordRetainB kw (p.title ++ [' '] ++ p.selftext))).map
          (redditNormalize sub)
    ∧ collect_tweets_by_keyword kwT maxT srcT
        = (srcT.take maxT).map (twitterNormalize kwT) := by
  constructor
  · unfold collect_subreddit_posts
    rw [redditLoop_filter_map sub s e kw (srcR.take maxp) []
      (fun p hp => hR p (List.take_subset maxp srcR hp))]
    rw [List.nil_append]
    congr 1
    exact List.filter_congr (fun p _ => redditRetain_eq s e kw p)
  · unfold collect_tweets_by_keyword
    rw [twitterLoop_take kwT maxT srcT 0 [] hT]
    rw [List.nil_append, Nat.sub_zero]

/-- C7 (witness): the keyword-semantics theorem applied to a concrete
Reddit listing with one matching and one non-matching post and to a
concrete Twitter source. -/
theorem c7_keyword_semantics_witness :
    collect_subreddit_posts ['r'] 0 10 (some [['g', 'a']]) 5
        [⟨1, 5, ['G', 'a'], ['s'], 0, false⟩, ⟨2, 5, ['x'], ['y'], 0, false⟩]
      = (([(⟨1, 5, ['G', 'a'], ['s'], 0, false⟩ : RawPost),
           ⟨2, 5, ['x'], ['y'], 0, false⟩].take 5).filter (fun p =>
          decide (0 ≤ p.created_utc ∧ p.created_utc ≤ 10)
            && keywordRetainB (some [['g', 'a']])
                (p.title ++ [' '] ++ p.selftext))).map (redditNormalize ['r'])
    ∧ collect_tweets_by_keyword ['g'] 5 [⟨1, 5, ['u'], ['h'], 0, false⟩]
        = ([(⟨1, 5, ['u'], ['h'], 0, false⟩ : RawTweet)].take 5).map
            (twitterNormalize ['g']) :=
  c7_keyword_semantics ['r'] 0 10 (some [['g', 'a']]) 5
    [⟨1, 5, ['G', 'a'], ['s'], 0, false⟩, ⟨2, 5, ['x'], ['y'], 0, false⟩]
    ['g'] 5 [⟨1, 5, ['u'], ['h'], 0, false⟩] (by decide) (by decide)

/-- C8: re-running the engine on a task whose checkpoint is already
`Completed` returns the empty record sequence and issues zero fetches
(spec-modelled: the repository contains no checkpoint code; the engine
is modelled from spec section 4.1, step 1). -/
theorem c8_idempotent_completed (cp : Checkpoint)
    (fetch : Nat → List Nat × Option Nat) (max_records fuel : Nat)
    (h : cp.status = TaskStatus.completed) :
    engineRun (some cp) fetch max_records fuel = ([], 0) := by
  simp [engineRun, h]

/-- C8 (witness): the idempotence theorem applied to a concrete
completed checkpoint and a fetch function with unlimited supply. -/
theorem c8_idempotent_completed_witness :
    engineRun (some ⟨7, 42, TaskStatus.completed⟩)
        (fun c => ([c], some (c + 1))) 100 5 = ([], 0) :=
  c8_idempotent_completed ⟨7, 42, TaskStatus.completed⟩
    (fun c => ([c], some (c + 1))) 100 5 rfl

/-- C9: `SocialMediaDataCollector.save_data` on an empty data list is
not total: it writes the JSON file containing the empty array, writes
no CSV file, and then raises `NameError` because `csv_path` is bound
only inside the non-empty branch yet is referenced unconditionally
afterwards. -/
theorem c9_save_data_empty_raises (od platform now : List Char)
    (fn : Option (List Char)) :
    (save_data od [] platform now fn).2 = some PyError.nameError
    ∧ (save_data od [] platform now fn).1.map Prod.snd
        = [Payload.json []] := by
  cases fn with
  | none => exact ⟨rfl, rfl⟩
  | some f =>
    by_cases hf : f.isEmpty <;> simp [save_data, hf]

/-- C9 (witness): the empty-list save theorem at concrete arguments. -/
theorem c9_save_data_empty_raises_witness :
    (save_data ['o'] [] ['p'] ['n'] none).2 = some PyError.nameError
    ∧ (save_data ['o'] [] ['p'] ['n'] none).1.map Prod.snd
        = [Payload.json []] :=
  c9_save_data_empty_raises ['o'] ['p'] ['n'] none

/-- C10: when several items share an identifier within one run, the
dict-comprehension deduplication keeps the last occurrence in
processing order: looking up any identifier in the output of
`collect_from_multiple_subreddits` (or
`collect_tweets_multiple_keywords`) finds exactly the final item with
that identifier in the concatenated collection order. -/
theorem c10_last_occurrence_wins (subs : List (List Char)) (s e : Nat)
    (kw : Option (List (List Char))) (maxPer : Nat)
    (srcOf : List Char → List RawPost) (kws : List (List Char))
    (maxT : Nat) (srcOfT : List Char → List RawTweet) (k : Nat) :
    (collect_from_multiple_subreddits subs s e kw maxPer srcOf).find?
        (fun p => decide (p.post_id = k))
      = ((subs.foldl (fun all sub =>
            all ++ collect_subreddit_posts sub s e kw maxPer (srcOf sub))
            []).reverse).find? (fun p => decide (p.post_id = k))
    ∧ (collect_tweets_multiple_keywords kws maxT srcOfT).find?
        (fun t => decide (t.tweet_id = k))
      = ((kws.foldl (fun all kw2 =>
            all ++ collect_tweets_by_keyword kw2 maxT (srcOfT kw2))
            []).reverse).find? (fun t => decide (t.tweet_id = k)) :=
  ⟨find?_pyDedup (fun p : PostData => p.post_id) k _,
   find?_pyDedup (fun t : TweetData => t.tweet_id) k _⟩

/-- C10 (witness): the last-occurrence theorem applied to a concrete
run in which two posts share `post_id = 1`. -/
theorem c10_last_occurrence_wins_witness :
    (collect_from_multiple_subreddits [['r']] 0 10 none 10
        (fun _ => [⟨1, 5, ['t'], ['s'], 0, false⟩,
                   ⟨1, 6, ['u'], ['v'], 2, false⟩])).find?
        (fun p => decide (p.post_id = 1))
      = (([['r']].foldl (fun all sub =>
            all ++ collect_subreddit_posts sub 0 10 none 10
              [⟨1, 5, ['t'], ['s'], 0, false⟩, ⟨1, 6, ['u'], ['v'], 2, false⟩])
            []).reverse).find? (fun p => decide (p.post_id = 1)) :=
  (c10_last_occurrence_wins [['r']] 0 10 none 10
    (fun _ => [⟨1, 5, ['t'], ['s'], 0, false⟩, ⟨1, 6, ['u'], ['v'], 2, false⟩])
    [] 0 (fun _ => []) 1).1
